import Mathlib

/-!
Verification of the Financial-Literacy-Chatbot repository.

This file gives a shallow embedding, in Lean 4, of the query-time logic of
`src/streamlit/s_app.py` (query rewriting, intent detection, context assembly,
prompt construction, source formatting, greeting detection) and of the data
scripts `src/convert_rag_to_training.py` (Q&A pair generation) and
`src/fix_chunks_metadata.py` (metadata fixing), together with theorems settling
the specification claims about them.

Python strings are modelled as Lean `String` (a list of unicode code points,
matching Python's sequence-of-code-points model); Python string methods used by
the code (`lower`, `strip`, `split`, `replace`, slicing, `startswith`, the `in`
operator) are defined below over `String.data`.  Python's `lower`/`strip`/`\s`
are modelled on their ASCII fragment, which is exact for every string the
embedded code paths compare.  Python dicts are modelled as insertion-ordered
association lists, matching Python 3.7+ dict iteration-order semantics.
-/

/-- ASCII whitespace, the characters matched by Python `str.split()` /
`str.strip()` / the regex class `\s` on ASCII text. -/
def pyIsSpaceChar (c : Char) : Bool :=
  c = ' ' || c = '\t' || c = '\n' || c = '\x0d' || c = '\x0b' || c = '\x0c'

/-- Python `str.lower()` (ASCII fragment). -/
def pyLower (s : String) : String :=
  ⟨s.data.map Char.toLower⟩

/-- Python `str.strip()` with no argument: remove leading and trailing whitespace. -/
def pyStrip (s : String) : String :=
  ⟨((s.data.dropWhile (pyIsSpaceChar ·)).reverse.dropWhile (pyIsSpaceChar ·)).reverse⟩

/-- Python slicing `s[:n]`. -/
def pyTake (s : String) (n : Nat) : String :=
  ⟨s.data.take n⟩

/-- Python `str.split()` with no argument: split on whitespace runs, dropping
empty pieces. -/
def pyWords (s : String) : List String :=
  ((s.data.splitOnP (pyIsSpaceChar ·)).filter (fun w => !w.isEmpty)).map (fun w => (⟨w⟩ : String))

/-- Python `needle in hay` on strings: `n` occurs as a contiguous substring of `h`. -/
def listIsInfixOf (n : List Char) : List Char → Bool
  | [] => n.isEmpty
  | c :: rest => n.isPrefixOf (c :: rest) || listIsInfixOf n rest

/-- String-level wrapper for the Python `in` operator. -/
def pyContains (hay needle : String) : Bool :=
  listIsInfixOf needle.data hay.data

/-- Python `hay.startswith(pre)`. -/
def pyStartsWith (hay pre : String) : Bool :=
  pre.data.isPrefixOf hay.data

/-- Worker for `listReplace`, structurally recursive on a fuel argument that
bounds the number of characters still to be consumed (each step consumes at
least one, so fuel `s.length` is always sufficient). -/
def listReplaceAux (pat rep : List Char) : Nat → List Char → List Char
  | 0, s => s
  | _ + 1, [] => []
  | fuel + 1, c :: rest =>
    if pat ≠ [] ∧ pat.isPrefixOf (c :: rest) then
      rep ++ listReplaceAux pat rep fuel (rest.drop (pat.length - 1))
    else
      c :: listReplaceAux pat rep fuel rest

/-- Python `s.replace(pat, rep)` with a non-empty pattern: replace every
non-overlapping occurrence left to right.  (Every pattern passed by the
embedded code is a non-empty literal; for an empty pattern this returns `s`.) -/
def listReplace (pat rep s : List Char) : List Char :=
  listReplaceAux pat rep s.length s

/-- String-level wrapper for Python `str.replace`. -/
def pyReplace (s pat rep : String) : String :=
  ⟨listReplace pat.data rep.data s.data⟩

/-- Python `int()` applied to a non-empty run of decimal digits. -/
def digitsToNat (ds : List Char) : Nat :=
  ds.foldl (fun acc c => acc * 10 + (c.toNat - 48)) 0

/-- POSIX `os.path.basename`: the part of the path after the last slash. -/
def posixBasename (p : String) : String :=
  match (p.data.reverse.splitOnP (fun c => c = '/')).head? with
  | some r => ⟨r.reverse⟩
  | none => p

/-! ## Query rewriting (s_app.py, `rewrite_query`) -/

/-- The `financial_keywords` mapping of `rewrite_query`, in dict insertion order. -/
def financial_keywords : List (String × String) := [
  ("save", "saving tips money management"),
  ("budget", "budgeting financial planning spending"),
  ("debt", "debt management loan credit card"),
  ("invest", "investment returns stocks bonds"),
  ("retire", "retirement planning EPF KWSP"),
  ("emergency", "emergency fund savings buffer"),
  ("mistake", "common mistakes errors avoid financial"),
  ("scam", "scam fraud prevention red flags"),
  ("insurance", "insurance medical coverage protection"),
  ("tax", "income tax filing LHDN deduction")]

/-- Embedding of `rewrite_query` from s_app.py: append the expansion of the first keyword that
occurs in the lowercased query; otherwise return the query unchanged. -/
def rewrite_query (query : String) : String :=
  let query_lower := pyLower query
  match financial_keywords.find? (fun p => pyContains query_lower p.1) with
  | some p => query ++ " " ++ p.2
  | none => query

/-! ## Intent detection (s_app.py, `detect_query_intent`) -/

/-- The result dict of `detect_query_intent`. -/
structure QueryIntent where
  list_type : Option String
  count : Option Nat
  is_question : Bool
deriving DecidableEq, Repr

/-- The interrogative words tested by `query_lower.startswith(...)`. -/
def interrogative_words : List String :=
  ["what", "how", "why", "when", "where", "can", "should", "is", "are", "do", "does"]

/-- The `list_patterns` dict of `detect_query_intent`, in insertion order. -/
def list_patterns : List (String × List String) := [
  ("mistakes", ["mistake", "error", "wrong", "avoid", "don\x27t", "never"]),
  ("tips", ["tip", "advice", "suggestion", "recommend"]),
  ("ways", ["way", "method", "how to"]),
  ("steps", ["step", "process", "procedure"]),
  ("reasons", ["reason", "why", "cause"]),
  ("habits", ["habit", "practice", "routine"])]

/-- The list nouns of the count regex `(\d+)\s*(mistake|tip|way|step|reason|habit|thing|point)`. -/
def count_list_nouns : List String :=
  ["mistake", "tip", "way", "step", "reason", "habit", "thing", "point"]

/-- The `word_nums` dict of `detect_query_intent`, in insertion order. -/
def word_nums : List (String × Nat) := [
  ("one", 1), ("two", 2), ("three", 3), ("four", 4), ("five", 5),
  ("six", 6), ("seven", 7), ("eight", 8), ("nine", 9), ("ten", 10)]

/-- One anchored attempt of the regex `(\d+)\s*(mistake|tip|way|step|reason|habit|thing|point)`
at the start of `cs`: a non-empty digit run, then optional whitespace, then one
of the list nouns.  (The regex is deterministic here: giving back characters
from the greedy `\d+` or `\s*` can never enable the noun alternatives, since a
digit or whitespace character never starts a noun.) -/
def matchCountAt (cs : List Char) : Option Nat :=
  let digits := cs.takeWhile Char.isDigit
  if digits.isEmpty then none
  else
    let rest := (cs.dropWhile Char.isDigit).dropWhile (pyIsSpaceChar ·)
    if count_list_nouns.any (fun noun => noun.data.isPrefixOf rest) then
      some (digitsToNat digits)
    else none

/-- Search of the count regex as `re.search` performs it: try each start position left to right. -/
def searchCount : List Char → Option Nat
  | [] => none
  | c :: rest =>
    match matchCountAt (c :: rest) with
    | some n => some n
    | none => searchCount rest

/-- Embedding of `detect_query_intent` from s_app.py. -/
def detect_query_intent (query : String) : QueryIntent :=
  let query_lower := pyLower query
  let is_question :=
    pyContains query "?" || interrogative_words.any (fun w => pyStartsWith query_lower w)
  let list_type :=
    (list_patterns.find? (fun p => p.2.any (fun pat => pyContains query_lower pat))).map (·.1)
  let count :=
    match searchCount query_lower.data with
    | some n => some n
    | none => (word_nums.find? (fun p => pyContains query_lower p.1)).map (·.2)
  ⟨list_type, count, is_question⟩

/-! ## Context assembly and prompt construction (s_app.py, `run_rag_chain`) -/

/-- A retrieved document (the LangChain `Document` shape consumed by
`run_rag_chain`): `page_content` text plus string-valued metadata. -/
structure Doc where
  page_content : String
  metadata : List (String × String)

/-- Behaviour of one document-fetch method exposed by the retriever: the call
either raises an exception or returns a value (`none` models a method that
returns Python `None`, which `run_rag_chain` normalises to `[]`). -/
inductive MethodBehavior where
  | raises : MethodBehavior
  | returns : (String → Option (List Doc)) → MethodBehavior

/-- The method-probing loop of `run_rag_chain`: the retriever is modelled by the
list of behaviours of the document-access methods it exposes, in the probed name
order (`get_relevant_documents`, `get_retrievals`, `retrieve`, `get_documents`,
`invoke`); the first call that does not raise supplies the documents, and the
final `if docs is None: docs = []` normalisation is applied. -/
def tryMethods (expanded_query : String) : List MethodBehavior → List Doc
  | [] => []
  | .raises :: rest => tryMethods expanded_query rest
  | .returns f :: _ => (f expanded_query).getD []

/-- The character budget `max_chars = 1500` of the context-assembly loop. -/
def rag_max_chars : Nat := 1500

/-- The context-assembly loop of `run_rag_chain`: walk the documents carrying
`total_chars`; a chunk whose text still fits is included whole, otherwise a
prefix of length `remaining = max_chars - total_chars` is included when
`remaining > 200`, and the loop stops.  Documents with empty text are skipped. -/
def assembleParts : List Doc → Nat → List String
  | [], _ => []
  | doc :: rest, total_chars =>
    let content := doc.page_content
    if content = "" then assembleParts rest total_chars
    else if total_chars + content.length ≤ rag_max_chars then
      content :: assembleParts rest (total_chars + content.length)
    else
      let remaining := rag_max_chars - total_chars
      if remaining > 200 then [pyTake content remaining] else []

/-- One entry of the `sources` list built by `run_rag_chain`. -/
structure SourceEntry where
  content : String
  metadata : List (String × String)

/-- The count instruction inserted into the prompts when `intent["count"]` is truthy. -/
def count_instruction_text (n : Nat) : String :=
  "The user asked for exactly " ++ toString n ++ " items. You MUST provide exactly "
    ++ toString n ++ " items, no more, no less."

/-- Text of the Strict-mode prompt before the count instruction. -/
def strict_prompt_head : String :=
  "You are a friendly financial literacy assistant helping Malaysian youth with money management.\n\nSTRICT RULES:\n1. Answer ONLY using information from the Context below\n2. Do NOT make up information not in the Context\n3. Keep each point BRIEF (1-2 sentences max per point)\n4. Use Malaysian context (RM, EPF/KWSP)\n\n"

/-- Text of the Strict-mode prompt after the count instruction. -/
def strict_prompt_tail (context query : String) : String :=
  "\n\nContext:\n" ++ context ++ "\n\nUser Question: " ++ query
    ++ "\n\nRESPONSE FORMAT:\n- One sentence introduction\n- List multiple points concisely:\n  1. **[Title]**: Brief explanation (1-2 sentences)\n  2. **[Title]**: Brief explanation (1-2 sentences)\n  3. **[Title]**: Brief explanation (1-2 sentences)\n- One practical tip at the end\n\nIMPORTANT: Keep each point SHORT. Cover MORE points rather than explaining one point in detail.\n\nAnswer:"

/-- The Strict-mode prompt f-string of `run_rag_chain`. -/
def strict_prompt (count_instruction context query : String) : String :=
  strict_prompt_head ++ count_instruction ++ strict_prompt_tail context query

/-- The Hybrid-mode prompt f-string of `run_rag_chain`. -/
def hybrid_prompt (count_instruction context query : String) : String :=
  "You are a financial literacy assistant for Malaysian youth.\n\nRULES:\n1. Use the Context below as your PRIMARY source\n2. You may add supplementary info, label it \"[Supplementary]\"\n3. Keep each point BRIEF (1-2 sentences)\n4. Use Malaysian context (RM, EPF/KWSP)\n\n"
    ++ count_instruction ++ "\n\nContext:\n" ++ context ++ "\n\nQuestion: " ++ query
    ++ "\n\nRESPONSE FORMAT:\n- Brief introduction\n- List points concisely:\n  1. **[Title]**: Brief explanation\n  2. **[Title]**: Brief explanation\n- One practical tip\n\nIMPORTANT: Cover MORE points briefly rather than few points in detail.\n\nAnswer:"

/-- The Model-only prompt f-string of `run_rag_chain`. -/
def model_only_prompt (count_instruction list_format query : String) : String :=
  "You are a financial literacy assistant for Malaysian youth.\n\n" ++ count_instruction
    ++ "\n\nQuestion: " ++ query
    ++ "\n\nRULES:\n1. Provide thorough, educational explanations (200-250 words)\n2. Use Malaysian context (RM, EPF/KWSP) where possible\n3. If listing "
    ++ list_format
    ++ ", explain WHY each point matters\n4. Include practical examples with specific amounts\n5. If unsure, acknowledge it but still provide helpful guidance\n\nAnswer:"

/-- The values returned (and the assembled context computed) by `run_rag_chain`:
the prompt handed to `llm.stream`, the `sources` list, and the local
`context` string the prompt was built from. -/
structure RagResult where
  prompt : String
  sources : List SourceEntry
  context : String

/-- Embedding of `run_rag_chain` from s_app.py, with the external retriever modelled by the
behaviours of its document-access methods and the LLM call represented by the
prompt it receives.  `rag_mode` is the Python string argument; any value other
than `"Strict"` and `"Hybrid"` selects the Model-only branch, which clears
`sources`. -/
def run_rag_chain (query : String) (retriever : List MethodBehavior) (rag_mode : String) :
    RagResult :=
  let expanded_query := rewrite_query query
  let intent := detect_query_intent query
  let docs := tryMethods expanded_query retriever
  let context_parts := assembleParts docs 0
  let context := String.intercalate "\n\n" context_parts
  let sources := docs.map (fun doc => SourceEntry.mk doc.page_content doc.metadata)
  let count_instruction :=
    match intent.count with
    | some n => if n = 0 then "" else count_instruction_text n
    | none => ""
  let list_format :=
    match intent.list_type with
    | some t =>
      if t = "mistakes" then "mistakes (things to AVOID)"
      else if t = "steps" then "steps (in order)"
      else if t = "reasons" then "reasons"
      else if t = "ways" then "ways"
      else if t = "habits" then "habits"
      else "tips"
    | none => "tips"
  if rag_mode = "Strict" then
    ⟨strict_prompt count_instruction context query, sources, context⟩
  else if rag_mode = "Hybrid" then
    ⟨hybrid_prompt count_instruction context query, sources, context⟩
  else
    ⟨model_only_prompt count_instruction list_format query, [], context⟩

/-! ## Source formatting (s_app.py, `ARTICLE_URLS`, `get_article_info`,
`extract_source_url`) and the tables of the data scripts -/

/-- One value of the ARTICLE_URLS table of fix_chunks_metadata.py. -/
structure FixInfo where
  title : String
  url : String
  company : String
deriving DecidableEq, Repr

/-- The ARTICLE_URLS table of s_app.py: key, title, url (insertion order preserved). -/
def ARTICLE_URLS : List (String × String × String) := [
  ("smart_budgeting_technique", "Smart Budgeting Technique", "https://www.kwsp.gov.my/w/infographic/smart-budgeting-technique"),
  ("first_salary_tips", "First Salary Tips", "https://www.kwsp.gov.my/w/article/first-salary-tips"),
  ("travelling_green_tips", "Travelling Green Tips", "https://www.kwsp.gov.my/w/article/travelling-green-tips"),
  ("insurance_tips", "Insurance Tips", "https://www.kwsp.gov.my/w/infographic/insurance-tips"),
  ("saving_tips_for_gig_worker", "Savings Tips for Gig Workers", "https://www.kwsp.gov.my/w/infographic/savings-tips-for-gig-workers"),
  ("death_assistance", "EPF Death Assistance", "https://www.kwsp.gov.my/w/article/epf-death-assistance"),
  ("multiple_savings_with_i_saraan", "Multiply Savings with i-Saraan", "https://www.kwsp.gov.my/w/infographic/multiply-savings-with-i-saraan"),
  ("expense_after_retired", "Expenses After Retirement", "https://www.kwsp.gov.my/w/article/expenses-after-retired"),
  ("fomo_shopping", "FOMO Shopping", "https://www.kwsp.gov.my/w/article/fomo-shopping"),
  ("why_medical_insurance_importance", "Why Medical Insurance is Important", "https://www.kwsp.gov.my/w/article/why-medical-insurance-is-important"),
  ("buy_vs_rent", "Buy vs Rent Malaysia", "https://www.kwsp.gov.my/w/article/buy-vs-rent-malaysia"),
  ("fashion_on_a_budget", "Fashion on a Budget", "https://www.kwsp.gov.my/w/article/fashion-on-a-budget"),
  ("budgeting_rule", "50-30-20 Rule", "https://www.kwsp.gov.my/w/article/50-30-20-rule"),
  ("file_income_tax", "How to File Income Tax", "https://www.kwsp.gov.my/w/article/how-to-file-income-tax"),
  ("compound_interest_benefits", "Compound Interest Benefits", "https://www.kwsp.gov.my/w/article/compound-interest-benefits"),
  ("pay_yourself_first", "Pay Yourself First", "https://www.kwsp.gov.my/w/article/pay-yourself-first"),
  ("new_year_financial_goals", "New Year Financial Goals", "https://www.kwsp.gov.my/w/article/new-year-financial-goals"),
  ("master_your_finance", "Master Your Finance", "https://www.kwsp.gov.my/w/article/master-your-finance"),
  ("quick_ways_to_losing_savings", "Quick Ways to Lose Savings", "https://www.kwsp.gov.my/w/article/quick-ways-to-lose-savings"),
  ("surviving_on_paycheck", "Surviving on Paycheck", "https://www.kwsp.gov.my/w/article/surviving-on-paycheck"),
  ("scam_red_flags", "Scam Red Flags", "https://www.kwsp.gov.my/w/article/scam-red-flags"),
  ("vacation_on_budget", "Vacation on Budget", "https://www.kwsp.gov.my/w/article/vacation-on-budget"),
  ("save_money_malaysian_ways", "Save Money Malaysian Ways", "https://www.kwsp.gov.my/w/article/save-money-malaysian-ways"),
  ("financial_independence", "Financial Independence", "https://www.kwsp.gov.my/w/article/financial-independence"),
  ("how_to_avoid_online_scam", "How to Avoid Online Scam", "https://www.kwsp.gov.my/w/article/how-to-avoid-online-scam"),
  ("buy_first_think_later", "Buy First Think Later", "https://www.kwsp.gov.my/w/article/buy-first-think-later"),
  ("income_and_your_savings", "Income and Your Savings", "https://www.kwsp.gov.my/w/article/income-and-your-savings"),
  ("retirement_planning_tips", "Retirement Planning Tips", "https://www.kwsp.gov.my/w/article/retirement-planning-tips"),
  ("savings_and_inflation", "Savings and Inflation", "https://www.kwsp.gov.my/w/article/savings-and-inflation"),
  ("achieve_money_goals", "Achieve Money Goals", "https://www.kwsp.gov.my/w/article/achieve-money-goal"),
  ("how_to_use_akaun_3", "How to Use Akaun 3", "https://www.kwsp.gov.my/w/article/how-to-use-akaun-3"),
  ("saving_for_festives", "Savings for Festives", "https://www.kwsp.gov.my/w/article/savings-for-festives"),
  ("shariah_retirement", "Simpanan Shariah Retirement", "https://www.kwsp.gov.my/w/article/simpanan-shariah-retirement"),
  ("invest_smarter", "Invest Smarter", "https://www.kwsp.gov.my/w/article/invest-smarter"),
  ("retirement_calculator", "Retirement Calculator", "https://www.kwsp.gov.my/w/article/retirement-calculator"),
  ("ensuring_wife_future", "Ensuring Wife Future", "https://www.kwsp.gov.my/w/article/ensuring-wife-future"),
  ("epf_house", "EPF Housing Withdrawal", "https://www.kwsp.gov.my/w/article/epf-housing-withdrawal"),
  ("emergency_fund", "Emergency Fund", "https://www.kwsp.gov.my/w/article/emergency-fund"),
  ("reward_yourself", "Reward Yourself", "https://www.kwsp.gov.my/w/article/reward-yourself"),
  ("unwise_spending_habits", "Unwise Spending Habits", "https://www.kwsp.gov.my/w/article/unwise-spending-habits"),
  ("boost_your_savings", "Boost Your Savings", "https://www.kwsp.gov.my/w/article/boost-your-savings"),
  ("reasons_to_save_money", "Reasons to Save Money", "https://www.kwsp.gov.my/w/article/reasons-to-save-money"),
  ("kwsp_gov_my_w_article_50_30_20_rule", "50-30-20 Rule", "https://www.kwsp.gov.my/w/article/50-30-20-rule"),
  ("kwsp_gov_my_w_article_expenses_after_retired", "Expenses After Retirement", "https://www.kwsp.gov.my/w/article/expenses-after-retired"),
  ("kwsp_gov_my_w_article_why_medical_insurance_is_important", "Why Medical Insurance is Important", "https://www.kwsp.gov.my/w/article/why-medical-insurance-is-important"),
  ("kwsp_gov_my_w_infographic_savings_tips_for_gig_workers", "Savings Tips for Gig Workers", "https://www.kwsp.gov.my/w/infographic/savings-tips-for-gig-workers"),
  ("educational_methodologies_of_personal_finance", "Educational Methodologies of Personal Finance", "https://www.financialeducatorscouncil.org/wp-content/uploads/Educational-Methodologies-of-Personal-Finance.pdf"),
  ("flcc_for_malaysian_adults_compressed", "Financial Literacy for Malaysian Adults", "https://www.fenetwork.my/wp-content/uploads/2023/02/Financial-Literacy-Core-Competencies-for-Malaysian-Adults.pdf"),
  ("framework_for_teaching_personal_finance", "Framework for Teaching Personal Finance", "https://www.financialeducatorscouncil.org/wp-content/uploads/Framework-for-Teaching-Personal-Finance.pdf"),
  ("learner_framework_standards_for_high_school_college_adults", "Learner Framework Standards for Financial Literacy", "https://www.financialeducatorscouncil.org/wp-content/uploads/DOC_PKG_EXC_-NFEC-Learner-Framework-Standards-for-High-School-College-Adults-_3.4.09.pdf"),
  ("nfec_report_policy_and_standards_framework_for_high_school_financial_literacy_education", "NFEC: Policy and Standards Framework for Financial Literacy", "https://www.financialeducatorscouncil.org/wp-content/uploads/nfec-report-policy-and-standards-framework-for-high-school-financial-literacy-education.pdf"),
  ("smart_technique_an_easy_way_to_achieve_financial_goals_kwsp_malaysia", "S.M.A.R.T Technique: Achieve Financial Goals", "https://www.kwsp.gov.my/en/w/infographic/smart-budgeting-technique"),
  ("5 mistakes young adult make with money \u201a\u00c4\u00ee lalua rahsiad.jsonl", "5 Mistakes Young Adults Make With Money", "https://www.laluarahsiad.com/blog-2/blog2"),
  ("what no one tells you about budgeting in your 20s \u201a\u00c4\u00ee lalua rahsiad.jsonl", "What No One Tells You About Budgeting in Your 20s", "https://www.laluarahsiad.com/blog-2/blog3"),
  ("why financial freedom starts with your mindset \u201a\u00c4\u00ee lalua rahsiad.jsonl", "Why Financial Freedom Starts with Your Mindset", "https://www.laluarahsiad.com/blog-2/blog1"),
  ("how to celebrate deepavali without overspending - kwsp malaysia.jsonl", "Celebrate Deepavali Without Overspending", "https://www.kwsp.gov.my/en/w/article/celebrate-deepavali-without-overspending"),
  ("article 4 (digital financial).jsonl", "Digital Financial Management", "https://www.akpk.org.my/sites/default/files/2024-12/ARTICLE%204%20%28DIGITAL%20FINANCIAL%29.pdf"),
  ("article 6 (getting into debt).jsonl", "Getting Into Debt: What You Need to Know", "https://www.akpk.org.my/sites/default/files/2025-02/ARTICLE%206%20%28GETTING%20INTO%20DEBT%29.pdf"),
  ("article 8 (breaking the chains).jsonl", "Breaking the Chains of Debt", "https://www.akpk.org.my/sites/default/files/2025-02/ARTICLE%208%20%28BREAKING%20THE%20CHAINS%29.pdf"),
  ("s.m.a.r.t technique_ an easy way to achieve financial goals - kwsp malaysia.jsonl", "S.M.A.R.T Technique: Achieve Financial Goals", "https://www.kwsp.gov.my/en/w/infographic/smart-budgeting-technique"),
  ("financial fraud prevention and detection_ governance and effective practices ( pdfdrive ).jsonl", "Financial Fraud Prevention and Detection", "https://institutes.abu.edu.ng/idr/public/assets/docs/Financial%20Fraud%20Prevention%20and%20Detection_%20Governance%20and%20Effective%20Practices%20(%20PDFDrive%20).pdf"),
  ("www_kwsp.gov", "BNPL: Buy Now Pay Later", "https://www.kwsp.gov.my/w/article/buy-now-pay-later"),
  ("buying_first_car", "Buying Your First Car", "https://www.kwsp.gov.my/w/article/buying-first-car"),
  ("early_retirement_habits", "Early Retirement Habits", "https://www.kwsp.gov.my/w/article/early-retirement-habits"),
  ("5_mistakes_young_adult_make_with_money_lalua_rahsiad", "5 Mistakes Young Adults Make With Money", "https://www.laluarahsiad.com/blog-2/blog2"),
  ("what_no_one_tells_you_about_budgeting_in_your_20s_lalua_rahsiad", "What No One Tells You About Budgeting in Your 20s", "https://www.laluarahsiad.com/blog-2/blog3"),
  ("why_financial_freedom_starts_with_your_mindset_lalua_rahsiad", "Why Financial Freedom Starts with Your Mindset", "https://www.laluarahsiad.com/blog-2/blog1"),
  ("how_to_celebrate_deepavali_without_overspending_kwsp_malaysia", "Celebrate Deepavali Without Overspending", "https://www.kwsp.gov.my/en/w/article/celebrate-deepavali-without-overspending"),
  ("article_4_digital_financial", "Digital Financial Management", "https://www.akpk.org.my/sites/default/files/2024-12/ARTICLE%204%20%28DIGITAL%20FINANCIAL%29.pdf"),
  ("article_6_getting_into_debt", "Getting Into Debt: What You Need to Know", "https://www.akpk.org.my/sites/default/files/2025-02/ARTICLE%206%20%28GETTING%20INTO%20DEBT%29.pdf"),
  ("article_8_breaking_the_chains", "Breaking the Chains of Debt", "https://www.akpk.org.my/sites/default/files/2025-02/ARTICLE%208%20%28BREAKING%20THE%20CHAINS%29.pdf")
]

/-- The ARTICLE_URLS table of fix_chunks_metadata.py (a distinct table from the one in s_app.py): key mapped to title, url, company, in insertion order. -/
def FIX_ARTICLE_URLS : List (String × FixInfo) := [
  ("smart_budgeting_technique", FixInfo.mk "Smart Budgeting Technique" "https://www.kwsp.gov.my/w/infographic/smart-budgeting-technique" "KWSP Malaysia"),
  ("first_salary_tips", FixInfo.mk "First Salary Tips" "https://www.kwsp.gov.my/w/article/first-salary-tips" "KWSP Malaysia"),
  ("travelling_green_tips", FixInfo.mk "Travelling Green Tips" "https://www.kwsp.gov.my/w/article/travelling-green-tips" "KWSP Malaysia"),
  ("insurance_tips", FixInfo.mk "Insurance Tips" "https://www.kwsp.gov.my/w/infographic/insurance-tips" "KWSP Malaysia"),
  ("saving_tips_for_gig_worker", FixInfo.mk "Savings Tips for Gig Workers" "https://www.kwsp.gov.my/w/infographic/savings-tips-for-gig-workers" "KWSP Malaysia"),
  ("death_assistance", FixInfo.mk "EPF Death Assistance" "https://www.kwsp.gov.my/w/article/epf-death-assistance" "KWSP Malaysia"),
  ("multiple_savings_with_i_saraan", FixInfo.mk "Multiply Savings with i-Saraan" "https://www.kwsp.gov.my/w/infographic/multiply-savings-with-i-saraan" "KWSP Malaysia"),
  ("expense_after_retired", FixInfo.mk "Expenses After Retirement" "https://www.kwsp.gov.my/w/article/expenses-after-retired" "KWSP Malaysia"),
  ("fomo_shopping", FixInfo.mk "FOMO Shopping" "https://www.kwsp.gov.my/w/article/fomo-shopping" "KWSP Malaysia"),
  ("why_medical_insurance_importance", FixInfo.mk "Why Medical Insurance is Important" "https://www.kwsp.gov.my/w/article/why-medical-insurance-is-important" "KWSP Malaysia"),
  ("buy_vs_rent", FixInfo.mk "Buy vs Rent Malaysia" "https://www.kwsp.gov.my/w/article/buy-vs-rent-malaysia" "KWSP Malaysia"),
  ("fashion_on_a_budget", FixInfo.mk "Fashion on a Budget" "https://www.kwsp.gov.my/w/article/fashion-on-a-budget" "KWSP Malaysia"),
  ("budgeting_rule", FixInfo.mk "50-30-20 Rule" "https://www.kwsp.gov.my/w/article/50-30-20-rule" "KWSP Malaysia"),
  ("file_income_tax", FixInfo.mk "How to File Income Tax" "https://www.kwsp.gov.my/w/article/how-to-file-income-tax" "KWSP Malaysia"),
  ("compound_interest_benefits", FixInfo.mk "Compound Interest Benefits" "https://www.kwsp.gov.my/w/article/compound-interest-benefits" "KWSP Malaysia"),
  ("pay_yourself_first", FixInfo.mk "Pay Yourself First" "https://www.kwsp.gov.my/w/article/pay-yourself-first" "KWSP Malaysia"),
  ("new_year_financial_goals", FixInfo.mk "New Year Financial Goals" "https://www.kwsp.gov.my/w/article/new-year-financial-goals" "KWSP Malaysia"),
  ("master_your_finance", FixInfo.mk "Master Your Finance" "https://www.kwsp.gov.my/w/article/master-your-finance" "KWSP Malaysia"),
  ("quick_ways_to_losing_savings", FixInfo.mk "Quick Ways to Lose Savings" "https://www.kwsp.gov.my/w/article/quick-ways-to-lose-savings" "KWSP Malaysia"),
  ("surviving_on_paycheck", FixInfo.mk "Surviving on Paycheck" "https://www.kwsp.gov.my/w/article/surviving-on-paycheck" "KWSP Malaysia"),
  ("scam_red_flags", FixInfo.mk "Scam Red Flags" "https://www.kwsp.gov.my/w/article/scam-red-flags" "KWSP Malaysia"),
  ("vacation_on_budget", FixInfo.mk "Vacation on Budget" "https://www.kwsp.gov.my/w/article/vacation-on-budget" "KWSP Malaysia"),
  ("save_money_malaysian_ways", FixInfo.mk "Save Money Malaysian Ways" "https://www.kwsp.gov.my/w/article/save-money-malaysian-ways" "KWSP Malaysia"),
  ("financial_independence", FixInfo.mk "Financial Independence" "https://www.kwsp.gov.my/w/article/financial-independence" "KWSP Malaysia"),
  ("how_to_avoid_online_scam", FixInfo.mk "How to Avoid Online Scam" "https://www.kwsp.gov.my/w/article/how-to-avoid-online-scam" "KWSP Malaysia"),
  ("buy_first_think_later", FixInfo.mk "Buy First Think Later" "https://www.kwsp.gov.my/w/article/buy-first-think-later" "KWSP Malaysia"),
  ("income_and_your_savings", FixInfo.mk "Income and Your Savings" "https://www.kwsp.gov.my/w/article/income-and-your-savings" "KWSP Malaysia"),
  ("retirement_planning_tips", FixInfo.mk "Retirement Planning Tips" "https://www.kwsp.gov.my/w/article/retirement-planning-tips" "KWSP Malaysia"),
  ("savings_and_inflation", FixInfo.mk "Savings and Inflation" "https://www.kwsp.gov.my/w/article/savings-and-inflation" "KWSP Malaysia"),
  ("achieve_money_goals", FixInfo.mk "Achieve Money Goals" "https://www.kwsp.gov.my/w/article/achieve-money-goal" "KWSP Malaysia"),
  ("how_to_use_akaun_3", FixInfo.mk "How to Use Akaun 3" "https://www.kwsp.gov.my/w/article/how-to-use-akaun-3" "KWSP Malaysia"),
  ("saving_for_festives", FixInfo.mk "Savings for Festives" "https://www.kwsp.gov.my/w/article/savings-for-festives" "KWSP Malaysia"),
  ("shariah_retirement", FixInfo.mk "Simpanan Shariah Retirement" "https://www.kwsp.gov.my/w/article/simpanan-shariah-retirement" "KWSP Malaysia"),
  ("invest_smarter", FixInfo.mk "Invest Smarter" "https://www.kwsp.gov.my/w/article/invest-smarter" "KWSP Malaysia"),
  ("retirement_calculator", FixInfo.mk "Retirement Calculator" "https://www.kwsp.gov.my/w/article/retirement-calculator" "KWSP Malaysia"),
  ("ensuring_wife_future", FixInfo.mk "Ensuring Wife Future" "https://www.kwsp.gov.my/w/article/ensuring-wife-future" "KWSP Malaysia"),
  ("epf_house", FixInfo.mk "EPF Housing Withdrawal" "https://www.kwsp.gov.my/w/article/epf-housing-withdrawal" "KWSP Malaysia"),
  ("emergency_fund", FixInfo.mk "Emergency Fund" "https://www.kwsp.gov.my/w/article/emergency-fund" "KWSP Malaysia"),
  ("reward_yourself", FixInfo.mk "Reward Yourself" "https://www.kwsp.gov.my/w/article/reward-yourself" "KWSP Malaysia"),
  ("unwise_spending_habits", FixInfo.mk "Unwise Spending Habits" "https://www.kwsp.gov.my/w/article/unwise-spending-habits" "KWSP Malaysia"),
  ("boost_your_savings", FixInfo.mk "Boost Your Savings" "https://www.kwsp.gov.my/w/article/boost-your-savings" "KWSP Malaysia"),
  ("reasons_to_save_money", FixInfo.mk "Reasons to Save Money" "https://www.kwsp.gov.my/w/article/reasons-to-save-money" "KWSP Malaysia"),
  ("kwsp_gov_my_w_article_50_30_20_rule", FixInfo.mk "50-30-20 Rule" "https://www.kwsp.gov.my/w/article/50-30-20-rule" "KWSP Malaysia"),
  ("kwsp_gov_my_w_article_expenses_after_retired", FixInfo.mk "Expenses After Retirement" "https://www.kwsp.gov.my/w/article/expenses-after-retired" "KWSP Malaysia"),
  ("kwsp_gov_my_w_article_why_medical_insurance_is_important", FixInfo.mk "Why Medical Insurance is Important" "https://www.kwsp.gov.my/w/article/why-medical-insurance-is-important" "KWSP Malaysia"),
  ("kwsp_gov_my_w_infographic_savings_tips_for_gig_workers", FixInfo.mk "Savings Tips for Gig Workers" "https://www.kwsp.gov.my/w/infographic/savings-tips-for-gig-workers" "KWSP Malaysia"),
  ("educational_methodologies_of_personal_finance", FixInfo.mk "Educational Methodologies of Personal Finance" "https://www.financialeducatorscouncil.org/wp-content/uploads/Educational-Methodologies-of-Personal-Finance.pdf" "Educational Resource"),
  ("flcc_for_malaysian_adults_compressed", FixInfo.mk "Financial Literacy for Malaysian Adults" "https://www.fenetwork.my/wp-content/uploads/2023/02/Financial-Literacy-Core-Competencies-for-Malaysian-Adults.pdf" "Educational Resource"),
  ("framework_for_teaching_personal_finance", FixInfo.mk "Framework for Teaching Personal Finance" "https://www.financialeducatorscouncil.org/wp-content/uploads/Framework-for-Teaching-Personal-Finance.pdf" "Educational Resource"),
  ("learner_framework_standards_for_high_school_college_adults", FixInfo.mk "Learner Framework Standards for Financial Literacy" "https://www.financialeducatorscouncil.org/wp-content/uploads/DOC_PKG_EXC_-NFEC-Learner-Framework-Standards-for-High-School-College-Adults-_3.4.09.pdf" "Educational Resource"),
  ("nfec_report_policy_and_standards_framework_for_high_school_financial_literacy_education", FixInfo.mk "NFEC: Policy and Standards Framework for Financial Literacy" "https://www.financialeducatorscouncil.org/wp-content/uploads/nfec-report-policy-and-standards-framework-for-high-school-financial-literacy-education.pdf" "Educational Resource"),
  ("smart_technique_an_easy_way_to_achieve_financial_goals_kwsp_malaysia", FixInfo.mk "S.M.A.R.T Technique: Achieve Financial Goals" "https://www.kwsp.gov.my/en/w/infographic/smart-budgeting-technique" "KWSP Malaysia"),
  ("5 mistakes young adult make with money \u2014 lalua rahsiad.jsonl", FixInfo.mk "5 Mistakes Young Adults Make With Money" "https://www.laluarahsiad.com/blog-2/blog2" "Lalua Rahsiad"),
  ("what no one tells you about budgeting in your 20s \u2014 lalua rahsiad.jsonl", FixInfo.mk "What No One Tells You About Budgeting in Your 20s" "https://www.laluarahsiad.com/blog-2/blog3" "Lalua Rahsiad"),
  ("why financial freedom starts with your mindset \u2014 lalua rahsiad.jsonl", FixInfo.mk "Why Financial Freedom Starts with Your Mindset" "https://www.laluarahsiad.com/blog-2/blog1" "Lalua Rahsiad"),
  ("how to celebrate deepavali without overspending - kwsp malaysia.jsonl", FixInfo.mk "Celebrate Deepavali Without Overspending" "https://www.kwsp.gov.my/en/w/article/celebrate-deepavali-without-overspending" "KWSP Malaysia"),
  ("article 4 (digital financial).jsonl", FixInfo.mk "Digital Financial Management" "https://www.akpk.org.my/sites/default/files/2024-12/ARTICLE%204%20%28DIGITAL%20FINANCIAL%29.pdf" "AKPK Malaysia"),
  ("article 6 (getting into debt).jsonl", FixInfo.mk "Getting Into Debt: What You Need to Know" "https://www.akpk.org.my/sites/default/files/2025-02/ARTICLE%206%20%28GETTING%20INTO%20DEBT%29.pdf" "AKPK Malaysia"),
  ("article 8 (breaking the chains).jsonl", FixInfo.mk "Breaking the Chains of Debt" "https://www.akpk.org.my/sites/default/files/2025-02/ARTICLE%208%20%28BREAKING%20THE%20CHAINS%29.pdf" "AKPK Malaysia"),
  ("s.m.a.r.t technique_ an easy way to achieve financial goals - kwsp malaysia.jsonl", FixInfo.mk "S.M.A.R.T Technique: Achieve Financial Goals" "https://www.kwsp.gov.my/en/w/infographic/smart-budgeting-technique" "KWSP Malaysia"),
  ("financial fraud prevention and detection_ governance and effective practices ( pdfdrive ).jsonl", FixInfo.mk "Financial Fraud Prevention and Detection" "https://www.wiley.com/en-us/Financial+Fraud+Prevention+and+Detection%3A+Governance+and+Effective+Practices-p-9781118617632" "Financial Resource"),
  ("www_kwsp.gov", FixInfo.mk "BNPL: Buy Now Pay Later" "https://www.kwsp.gov.my/w/article/buy-now-pay-later" "KWSP Malaysia"),
  ("buying_first_car", FixInfo.mk "Buying Your First Car" "https://www.kwsp.gov.my/w/article/buying-first-car" "KWSP Malaysia"),
  ("early_retirement_habits", FixInfo.mk "Early Retirement Habits" "https://www.kwsp.gov.my/w/article/early-retirement-habits" "KWSP Malaysia")
]

/-- TOPIC_QA_TEMPLATES of convert_rag_to_training.py: topic mapped to (question, preset answer) pairs; every preset answer in the source is None. -/
def TOPIC_QA_TEMPLATES : List (String × List (String × Option String)) := [
  ("50/30/20", [("What is the 50/30/20 budgeting rule?", none), ("How do I apply the 50/30/20 rule?", none), ("How should I divide my salary using the 50/30/20 rule?", none), ("Can you give an example of 50/30/20 budgeting?", none), ("What percentage of my income should go to savings?", none)]),
  ("savings", [("How can I start saving money?", none), ("What is \x27pay yourself first\x27?", none), ("How much should I save each month?", none), ("What is an emergency fund?", none), ("How do I build an emergency fund?", none), ("Why is saving important for young adults?", none), ("How can I save money on a low salary?", none)]),
  ("budget", [("How do I create a budget?", none), ("What are some budgeting tips?", none), ("How can I track my expenses?", none), ("How do I stick to my budget?", none), ("What are common budgeting mistakes?", none), ("How can I budget on a RM2000 salary?", none)]),
  ("debt", [("How can I avoid getting into debt?", none), ("What should I know about credit cards?", none), ("How do I pay off my debts?", none), ("What is the debt snowball method?", none), ("Is BNPL (Buy Now Pay Later) a good idea?", none), ("How do young Malaysians get into debt?", none)]),
  ("investment", [("How does compound interest work?", none), ("When should I start investing?", none), ("What are basic investment options in Malaysia?", none), ("What is EPF/KWSP?", none), ("How can compound interest help me build wealth?", none)]),
  ("retirement", [("How do I plan for retirement?", none), ("What habits help with early retirement?", none), ("How much do I need for retirement in Malaysia?", none), ("What expenses should I expect after retirement?", none)]),
  ("tax", [("How do I file income tax in Malaysia?", none), ("What tax deductions can I claim?", none), ("When is the tax filing deadline in Malaysia?", none), ("What is LHDN and how do I use it?", none)]),
  ("insurance", [("Why is medical insurance important?", none), ("What types of insurance should I have?", none), ("How do I choose the right insurance?", none), ("What insurance do young adults need?", none)]),
  ("car", [("Should I buy a new or used car?", none), ("How do I budget for a car purchase?", none), ("What should I know about car loans?", none), ("Tips for buying my first car in Malaysia?", none)]),
  ("house", [("Should I buy or rent a house in Malaysia?", none), ("How do I save for a house down payment?", none), ("What should first-time homebuyers know?", none), ("What are the costs of owning a home?", none)]),
  ("scam", [("How can I avoid financial scams?", none), ("What are common online scams to watch for?", none), ("How do I protect myself from fraud?", none)]),
  ("first_salary", [("What should I do with my first salary?", none), ("How should fresh graduates manage their money?", none), ("What financial mistakes do young adults make?", none), ("Tips for managing money in my 20s?", none)]),
  ("mindset", [("How does mindset affect financial success?", none), ("What is financial freedom?", none), ("How can I change my money mindset?", none)]),
  ("gig_worker", [("How should gig workers manage their finances?", none), ("What savings tips are there for freelancers?", none)]),
  ("general", [("What financial advice do you have for Malaysian youth?", none), ("How can I be better with money?", none), ("What are the basics of personal finance?", none)])
]

/-- TOPIC_KEYWORDS of convert_rag_to_training.py. -/
def TOPIC_KEYWORDS : List (String × List String) := [
  ("50/30/20", ["50/30/20", "50-30-20", "50 30 20", "budgeting rule", "50% for needs", "30% for wants", "20% for savings"]),
  ("savings", ["saving", "emergency fund", "savings account", "pay yourself first", "save money", "savings cushion", "start saving"]),
  ("budget", ["budget", "expense", "spending", "money management", "track your", "financial plan", "income allocation"]),
  ("debt", ["debt", "credit card", "loan", "bnpl", "buy now pay later", "repayment", "borrow", "owing money"]),
  ("investment", ["invest", "compound interest", "grow your money", "returns", "portfolio", "wealth building"]),
  ("retirement", ["retirement", "retire", "epf", "kwsp", "pension", "after retirement"]),
  ("tax", ["tax", "lhdn", "income tax", "tax relief", "tax deduction", "filing", "pcb"]),
  ("insurance", ["insurance", "medical cover", "protection", "policy", "coverage", "insured"]),
  ("car", ["car", "vehicle", "automobile", "car loan", "car financing", "first car"]),
  ("house", ["house", "home", "property", "housing loan", "buy vs rent", "homeowner", "mortgage"]),
  ("scam", ["scam", "fraud", "phishing", "trick", "con", "suspicious", "deceive"]),
  ("first_salary", ["first salary", "fresh graduate", "first job", "young adult", "starting work", "first paycheck"]),
  ("mindset", ["mindset", "financial freedom", "wealth mindset", "money mindset", "attitude", "discipline"]),
  ("gig_worker", ["gig worker", "freelancer", "self-employed", "gig economy", "side hustle"])
]

/-- Python `metadata.get(k, default)` over the association-list model of a dict. -/
def metaGet (m : List (String × String)) (k default : String) : String :=
  ((m.find? (fun p => p.1 == k)).map (·.2)).getD default

/-- Exact-key lookup in the s_app.py ARTICLE_URLS dict, yielding (title, url). -/
def lookupArticle (k : String) : Option (String × String) :=
  (ARTICLE_URLS.find? (fun e => e.1 == k)).map (·.2)

/-- The key-normalisation chain applied by `get_article_info` to a source name
or metadata title:
`.lower().replace(" ", "_").replace("-", "_").replace("‚Äî", "_").replace(".jsonl", "").replace(".pdf", "").strip()`. -/
def normalize_source_key (s : String) : String :=
  pyStrip (pyReplace (pyReplace (pyReplace (pyReplace (pyReplace
    (pyLower s) " " "_") "-" "_") "‚Äî" "_") ".jsonl" "") ".pdf" "")

/-- The keys probed by `extract_source_url`, in order. -/
def source_url_keys : List String :=
  ["url", "source", "source_url", "link", "href", "webpage_url", "uri"]

/-- Embedding of `extract_source_url` from s_app.py: the first metadata value under a known key
that starts with `http` or `www`, else the first metadata value containing
`http` or starting with `www`, else the KWSP home page.  A value starting with
`www` gets an `https://` scheme prepended.  (All metadata values are modelled
as strings, so the `isinstance(v, str)` guards hold.) -/
def extract_source_url (metadata : List (String × String)) : String :=
  if metadata = [] then "https://www.kwsp.gov.my"
  else
    let fromKeys := source_url_keys.findSome? (fun k =>
      match (metadata.find? (fun p => p.1 == k)).map (·.2) with
      | some v =>
        if v ≠ "" && (pyStartsWith v "http" || pyStartsWith v "www") then
          some (if pyStartsWith v "www" then "https://" ++ v else v)
        else none
      | none => none)
    match fromKeys with
    | some u => u
    | none =>
      match metadata.findSome? (fun p =>
        if pyContains p.2 "http" || pyStartsWith p.2 "www" then
          some (if pyStartsWith p.2 "www" then "https://" ++ p.2 else p.2)
        else none) with
      | some u => u
      | none => "https://www.kwsp.gov.my"

/-- The meta-title matching block of `get_article_info`: exact lookup of the
normalised title key, then the substring-containment loop over the table keys
in either direction. -/
def titleMatch (meta_title : String) : Option (String × String) :=
  if meta_title = "" then none
  else
    let title_key := normalize_source_key meta_title
    match lookupArticle title_key with
    | some info => some info
    | none =>
      (ARTICLE_URLS.find? (fun e =>
        pyContains title_key e.1 || pyContains e.1 title_key)).map (·.2)

/-- Embedding of `get_article_info` from s_app.py: resolve a (title, url) pair for a source
name and chunk metadata.  The Python `if` chain with early `return`s is
rendered as nested conditionals; the Lalua-Rahsiad special block falls through
when its outer condition holds but none of its inner keyword tests do. -/
def get_article_info (source_name₀ : String) (metadata : List (String × String)) :
    String × String :=
  let source_file := metaGet metadata "source_file" ""
  let source_name :=
    if source_file ≠ "" && source_name₀ = "" then posixBasename source_file else source_name₀
  let meta_title := metaGet metadata "title" ""
  let source_key := if source_name ≠ "" then normalize_source_key source_name else ""
  let lalua :=
    pyContains (pyLower source_key) "lalua"
      || (meta_title ≠ "" && pyContains (pyLower meta_title) "lalua")
  if lalua && (pyContains (pyLower source_key) "mistake"
      || (meta_title ≠ "" && pyContains (pyLower meta_title) "mistake")) then
    ("5 Mistakes Young Adults Make With Money", "https://www.laluarahsiad.com/blog-2/blog2")
  else if lalua && (pyContains (pyLower source_key) "budget"
      || (meta_title ≠ "" && pyContains (pyLower meta_title) "budget")) then
    ("What No One Tells You About Budgeting in Your 20s", "https://www.laluarahsiad.com/blog-2/blog3")
  else if lalua && (pyContains (pyLower source_key) "mindset"
      || pyContains (pyLower source_key) "freedom"
      || (meta_title ≠ "" && (pyContains (pyLower meta_title) "mindset"
            || pyContains (pyLower meta_title) "freedom"))) then
    ("Why Financial Freedom Starts with Your Mindset", "https://www.laluarahsiad.com/blog-2/blog1")
  else
    match titleMatch meta_title with
    | some info => info
    | none =>
      if source_name = "" then (metaGet metadata "title" "Unknown Source", extract_source_url metadata)
      else
        match lookupArticle source_key with
        | some info => info
        | none =>
          match (ARTICLE_URLS.find? (fun e =>
              pyContains source_key e.1 || pyContains e.1 source_key)).map (·.2) with
          | some info => info
          | none => (metaGet metadata "title" source_name, extract_source_url metadata)

/-- The source-name derivation at the chunk-display call sites of s_app.py
(`source_file` basename when present, else the `title`, else the `source`
metadata field), followed by the `get_article_info` call: how a retrieved
chunk's metadata is formatted for attribution. -/
def format_chunk_source (metadata : List (String × String)) : String × String :=
  let source_file := metaGet metadata "source_file" ""
  let source_name :=
    if source_file ≠ "" then posixBasename source_file
    else metaGet metadata "title" (metaGet metadata "source" "")
  get_article_info source_name metadata

/-! ## Greeting detection and chat dispatch (s_app.py, `is_greeting`,
`show_chatbot_page`) -/

/-- The fixed greeting strings of `is_greeting`. -/
def greetings_list : List String :=
  ["hi", "hello", "hey", "hiya", "good morning", "good afternoon", "good evening", "yo"]

/-- Embedding of `is_greeting` from s_app.py: empty text is not a greeting; otherwise the
stripped, lowercased text is a greeting when it equals one of the fixed
greeting strings, or (Python operator precedence: `a or b and c`) when it has
at most two whitespace-separated words and starts with one of them. -/
def is_greeting (text : String) : Bool :=
  if text = "" then false
  else
    let t := pyLower (pyStrip text)
    greetings_list.contains t
      || ((pyWords t).length ≤ 2 && greetings_list.any (fun g => pyStartsWith t g))

/-- The canned response sent for greetings in `show_chatbot_page`. -/
def greeting_response : String :=
  "Hello! I understand that a greeting means you\x27d like to start a conversation. As a financial literacy chatbot, I\x27m here to help with questions about budgeting, saving, investing, debt, retirement (EPF/KWSP), and other personal finance topics. How can I assist you today?"

/-- What the chat handler does with one user prompt. -/
inductive ChatAction where
  | greeting : String → ChatAction
  | rag : RagResult → ChatAction

/-- The dispatch of `show_chatbot_page` on a user prompt: a greeting
short-circuits to the canned response without calling `run_rag_chain`;
everything else runs the RAG chain. -/
def handle_prompt (prompt : String) (retriever : List MethodBehavior) (rag_mode : String) :
    ChatAction :=
  if is_greeting prompt then ChatAction.greeting greeting_response
  else ChatAction.rag (run_rag_chain prompt retriever rag_mode)

/-! ## Q&A pair generation (convert_rag_to_training.py) -/

/-- Python `max(scores, key=scores.get)` over an insertion-ordered dict:
the first key attaining the maximal value. -/
def maxKeyByValue : List (String × Nat) → Option String
  | [] => none
  | p :: rest => some ((rest.foldl (fun best q => if q.2 > best.2 then q else best) p).1)

/-- Embedding of `identify_topic` from convert_rag_to_training.py: count keyword occurrences
per topic, keep topics with a positive score, and return the first maximal one;
`"general"` when no keyword matches. -/
def identify_topic (text : String) : String :=
  let text_lower := pyLower text
  let scores := (TOPIC_KEYWORDS.map (fun p =>
      (p.1, (p.2.filter (fun kw => pyContains text_lower (pyLower kw))).length))).filter
    (fun s => s.2 > 0)
  match maxKeyByValue scores with
  | some topic => topic
  | none => "general"

/-- One generated Q&A pair of `create_qa_pairs_from_chunk`. -/
structure QaPair where
  prompt : String
  completion : String
  topic : String
  source : String
deriving DecidableEq, Repr

/-- Lookup `TOPIC_QA_TEMPLATES.get(topic, TOPIC_QA_TEMPLATES["general"])`. -/
def templatesFor (topic : String) : List (String × Option String) :=
  (((TOPIC_QA_TEMPLATES.find? (fun p => p.1 == topic)).map (·.2)).getD
    (((TOPIC_QA_TEMPLATES.find? (fun p => p.1 == "general")).map (·.2)).getD []))

/-- Embedding of `create_qa_pairs_from_chunk` from convert_rag_to_training.py.  `chunk_text`
is the chunk's `text` field (`chunk.get("text", "")`, the only field the
function reads).  The regex-based helpers `clean_text` and
`extract_good_sentences`, and the `random.sample` template selection, are
taken as parameters: the function is proved about uniformly in them, and every
guard the claims concern precedes or is independent of their values. -/
def create_qa_pairs_from_chunk
    (clean_text : String → String)
    (extract_good_sentences : String → List String)
    (sample : List (String × Option String) → Nat → List (String × Option String))
    (chunk_text : String) (filename : String) : List QaPair :=
  if chunk_text = "" ∨ chunk_text.length < 150 then []
  else
    let text := clean_text chunk_text
    if text.length < 100 then []
    else
      let sentences := extract_good_sentences text
      if sentences.length < 2 then []
      else
        let topic := identify_topic text
        let templates := templatesFor topic
        let response_text := String.intercalate " " (sentences.take 5)
        if response_text.length < 80 then []
        else
          let num_to_use := min 2 templates.length
          let selected := sample templates num_to_use
          selected.map (fun q =>
            let answer :=
              match q.2 with
              | some a => if a = "" then response_text else a
              | none => response_text
            QaPair.mk q.1 answer topic filename)

/-! ## Metadata fixing (fix_chunks_metadata.py) -/

/-- Strip a trailing ` (n)` duplicate marker: `re.sub(r'\s*\(\d+\)\s*$', '', name)`. -/
def stripCopySuffix (name : String) : String :=
  let rev := name.data.reverse
  let r1 := rev.dropWhile (pyIsSpaceChar ·)
  match r1 with
  | ')' :: r2 =>
    let digits := r2.takeWhile Char.isDigit
    if digits.isEmpty then name
    else
      match r2.drop digits.length with
      | '(' :: r3 => ⟨(r3.dropWhile (pyIsSpaceChar ·)).reverse⟩
      | _ => name
  | _ => name

/-- Embedding of `normalize_filename` from fix_chunks_metadata.py. -/
def normalize_filename (filename : String) : String :=
  let name := stripCopySuffix (pyStrip (pyReplace (pyLower filename) ".jsonl" ""))
  let name := pyReplace (pyReplace name " " "_") "-" "_"
  if pyStartsWith name "www" then
    if name = "www_kwsp" || name = "www_kwsp_gov" then name
    else pyReplace (pyReplace name "www_" "") "www." ""
  else name

/-- Exact-key lookup in the fix_chunks_metadata.py ARTICLE_URLS table. -/
def lookupFixArticle (k : String) : Option FixInfo :=
  (FIX_ARTICLE_URLS.find? (fun e => e.1 == k)).map (·.2)

/-- Embedding of `find_article_info` from fix_chunks_metadata.py: exact match on the
normalised filename, then on the lowercased raw filename, then the
substring-containment loop with underscore and hyphen variants. -/
def find_article_info (filename : String) : Option FixInfo :=
  let normalized := normalize_filename filename
  match lookupFixArticle normalized with
  | some info => some info
  | none =>
    match lookupFixArticle (pyLower filename) with
    | some info => some info
    | none =>
      let normalized_hyphen := pyReplace normalized "_" "-"
      (FIX_ARTICLE_URLS.find? (fun e =>
        let key_hyphen := pyReplace e.1 "_" "-"
        pyContains normalized e.1 || pyContains e.1 normalized
          || pyContains normalized_hyphen key_hyphen
          || pyContains key_hyphen normalized_hyphen)).map (·.2)

/-- A JSON value, the parsed form of one JSONL line processed by
`update_chunk_file`.  Objects are insertion-ordered association lists,
matching Python dict semantics (keys of parsed JSON objects are unique). -/
inductive JValue where
  | jstr : String → JValue
  | jnum : Int → JValue
  | jbool : Bool → JValue
  | jnull : JValue
  | jarr : List JValue → JValue
  | jobj : List (String × JValue) → JValue

/-- Python dict assignment `d[k] = v` on the association-list model: update the
value in place when the key is present (keeping its position), else append. -/
def dictSet {α : Type} (m : List (String × α)) (k : String) (v : α) : List (String × α) :=
  if m.any (fun p => p.1 == k) then
    m.map (fun p => if p.1 == k then (p.1, v) else p)
  else m ++ [(k, v)]

/-- Python `k in d` / `d.get(k)` on the association-list model. -/
def dictFind {α : Type} (m : List (String × α)) (k : String) : Option α :=
  (m.find? (fun p => p.1 == k)).map (·.2)

/-- The per-chunk body of `update_chunk_file`: ensure a `metadata` object
exists, then set its `source`, `title`, `url` and `from` fields.  Returns
`none` when the chunk's `metadata` field is not an object, modelling the
`TypeError` Python raises on item assignment there (caught by the enclosing
`except`, which leaves the file unchanged). -/
def fix_chunk (info : FixInfo) (filename : String) (chunk : List (String × JValue)) :
    Option (List (String × JValue)) :=
  let c :=
    if chunk.any (fun p => p.1 == "metadata") then chunk
    else dictSet chunk "metadata" (JValue.jobj [])
  match dictFind c "metadata" with
  | some (JValue.jobj m) =>
    let m := dictSet m "source" (JValue.jstr filename)
    let m := dictSet m "title" (JValue.jstr info.title)
    let m := dictSet m "url" (JValue.jstr info.url)
    let m := dictSet m "from" (JValue.jstr info.company)
    some (dictSet c "metadata" (JValue.jobj m))
  | _ => none

/-- The line loop of `update_chunk_file` over the parsed chunks of the file;
`none` when any line raises. -/
def fixChunks (info : FixInfo) (filename : String) :
    List (List (String × JValue)) → Option (List (List (String × JValue)))
  | [] => some []
  | c :: rest =>
    match fix_chunk info filename c, fixChunks info filename rest with
    | some c', some rest' => some (c' :: rest')
    | _, _ => none

/-- Embedding of `update_chunk_file` from fix_chunks_metadata.py, modelled on the parsed
contents of the JSONL file (serialisation is the identity on this model:
`json.dumps` of an unchanged parsed object reproduces the line, and blank
lines are dropped by both passes).  When no article mapping is found, or any
line raises, the file is left unchanged. -/
def update_chunk_file (filename : String) (chunks : List (List (String × JValue))) :
    List (List (String × JValue)) :=
  match find_article_info filename with
  | none => chunks
  | some info =>
    match fixChunks info filename chunks with
    | some out => out
    | none => chunks

/-- Modelled from the spec's words for C4: determining the count by scanning
the spelled-out numbers one through ten as whole-word matches (the word equals
one of the whitespace-separated words of the lowercased query), first match
winning by iteration order. -/
def spec_whole_word_count (query : String) : Option Nat :=
  (word_nums.find? (fun p => (pyWords (pyLower query)).contains p.1)).map (·.2)

/-- A key set by `dictSet` holds the set value at every occurrence and is present. -/
def KeyFixed {α : Type} (k : String) (v : α) (m : List (String × α)) : Prop :=
  m.any (fun p => p.1 == k) = true ∧ ∀ p ∈ m, p.1 = k → p.2 = v

/-! ## Helper lemmas -/

/-- Correctness of the executable substring test: `listIsInfixOf n h` is `true`
exactly when `n` is an infix of `h`. -/
theorem listIsInfixOf_iff (n h : List Char) : listIsInfixOf n h = true ↔ n <:+: h := by
  induction h with
  | nil =>
    simp [listIsInfixOf, List.isEmpty_iff]
  | cons c rest ih =>
    simp only [listIsInfixOf, Bool.or_eq_true, ih]
    rw [List.infix_cons_iff]
    constructor
    · rintro (hp | hi)
      · left; exact List.isPrefixOf_iff_prefix.mp hp
      · right; exact hi
    · rintro (hp | hi)
      · left; exact List.isPrefixOf_iff_prefix.mpr hp
      · right; exact hi

/-- Length of a constructed string is the length of its character list. -/
theorem string_mk_length (l : List Char) : (String.mk l).length = l.length := rfl

/-- String append acts as list append on the underlying characters. -/
theorem string_data_append (a b : String) : (a ++ b).data = a.data ++ b.data := by
  cases a; cases b; rfl

/-- Invariant of the assembly loop: starting from a used budget of
`total ≤ max_chars`, the texts included by `assembleParts` fit in the
remaining budget. -/
theorem assembleParts_sum_le (docs : List Doc) :
    ∀ total, total ≤ rag_max_chars →
      total + ((assembleParts docs total).map String.length).sum ≤ rag_max_chars := by
  induction docs with
  | nil => intro total h; simpa [assembleParts] using h
  | cons d rest ih =>
    intro total h
    by_cases h0 : d.page_content = ""
    · simpa [assembleParts, h0] using ih total h
    · by_cases hfit : total + d.page_content.length ≤ rag_max_chars
      · have := ih (total + d.page_content.length) hfit
        simp only [assembleParts, h0, hfit, if_true, if_false, ite_false, ite_true,
          List.map_cons, List.sum_cons]
        omega
      · by_cases hrem : rag_max_chars - total > 200
        · have htake : (d.page_content.data.take (rag_max_chars - total)).length
              ≤ rag_max_chars - total := by
            simp [List.length_take]
          simp only [assembleParts, h0, hfit, hrem, if_true, if_false, ite_false, ite_true,
            List.map_cons, List.map_nil, List.sum_cons, List.sum_nil, pyTake, string_mk_length]
          omega
        · simp only [assembleParts, h0, hfit, hrem, if_false, ite_false]
          simpa using h

/-- Setting a key makes it fixed at the set value. -/
theorem keyFixed_dictSet_self {α : Type} (m : List (String × α)) (k : String) (v : α) :
    KeyFixed k v (dictSet m k v) := by
  constructor
  · unfold dictSet
    by_cases h : m.any (fun p => p.1 == k) = true
    · rw [if_pos h, List.any_map]
      have he : ((fun p : String × α => p.1 == k) ∘ fun p => if p.1 == k then (p.1, v) else p)
          = fun p : String × α => p.1 == k := by
        funext q
        by_cases hq : (q.1 == k) = true <;> simp [Function.comp, hq]
      rw [he]; exact h
    · rw [if_neg h, List.any_append]
      simp
  · intro p hp hpk
    unfold dictSet at hp
    by_cases h : m.any (fun p => p.1 == k) = true
    · rw [if_pos h] at hp
      rcases List.mem_map.mp hp with ⟨q, hq, rfl⟩
      by_cases hqk : (q.1 == k) = true
      · simp [hqk]
      · rw [if_neg (by simpa using hqk)] at hpk ⊢
        exact absurd (beq_iff_eq.mpr hpk) (by simpa using hqk)
    · rw [if_neg h] at hp
      rcases List.mem_append.mp hp with hm | hlast
      · have hall := List.any_eq_false.mp (Bool.eq_false_iff.mpr h)
        exact absurd (beq_iff_eq.mpr hpk) (by simpa using hall p hm)
      · simp only [List.mem_singleton] at hlast
        subst hlast; rfl

/-- Setting a different key preserves fixedness. -/
theorem keyFixed_dictSet_other {α : Type} {k : String} {v : α} {m : List (String × α)}
    (k' : String) (v' : α) (hk : k ≠ k') (h : KeyFixed k v m) :
    KeyFixed k v (dictSet m k' v') := by
  obtain ⟨h1, h2⟩ := h
  constructor
  · unfold dictSet
    by_cases hc : m.any (fun p => p.1 == k') = true
    · rw [if_pos hc, List.any_map]
      have he : ((fun p : String × α => p.1 == k) ∘ fun p => if p.1 == k' then (p.1, v') else p)
          = fun p : String × α => p.1 == k := by
        funext q
        by_cases hq : (q.1 == k') = true <;> simp [Function.comp, hq]
      rw [he]; exact h1
    · rw [if_neg hc, List.any_append, h1]
      rfl
  · intro p hp hpk
    unfold dictSet at hp
    by_cases hc : m.any (fun p => p.1 == k') = true
    · rw [if_pos hc] at hp
      rcases List.mem_map.mp hp with ⟨q, hq, rfl⟩
      by_cases hqk : (q.1 == k') = true
      · rw [if_pos hqk] at hpk ⊢
        exact absurd hpk (by simpa using hk.symm ∘ (beq_iff_eq.mp hqk ▸ Eq.symm) ∘ Eq.symm)
      · rw [if_neg (by simpa using hqk)] at hpk ⊢
        exact h2 q hq hpk
    · rw [if_neg hc] at hp
      rcases List.mem_append.mp hp with hm | hlast
      · exact h2 p hm hpk
      · simp only [List.mem_singleton] at hlast
        subst hlast
        exact absurd hpk (by simpa using hk.symm)

/-- Setting a key that is already fixed at the same value changes nothing. -/
theorem dictSet_of_keyFixed {α : Type} {k : String} {v : α} {m : List (String × α)}
    (h : KeyFixed k v m) : dictSet m k v = m := by
  obtain ⟨h1, h2⟩ := h
  unfold dictSet
  rw [if_pos h1]
  have : ∀ p ∈ m, (if p.1 == k then (p.1, v) else p) = p := by
    intro p hp
    by_cases hq : (p.1 == k) = true
    · rw [if_pos hq]
      have := h2 p hp (beq_iff_eq.mp hq)
      cases p; simp_all
    · rw [if_neg (by simpa using hq)]
  rw [List.map_congr_left this]
  simp

/-- Looking up a key just set yields the set value (key-present case). -/
theorem dictFind_map_set {α : Type} (m : List (String × α)) (k : String) (v : α) :
    m.any (fun p => p.1 == k) = true →
    ((m.map (fun p => if p.1 == k then (p.1, v) else p)).find?
      (fun p => p.1 == k)).map (·.2) = some v := by
  induction m with
  | nil => intro h; simp at h
  | cons p rest ih =>
    intro h
    by_cases hp : (p.1 == k) = true
    · simp [List.find?_cons, hp, beq_iff_eq.mp hp]
    · have hr : rest.any (fun p => p.1 == k) = true := by
        simp only [List.any_cons, Bool.or_eq_true] at h
        rcases h with h | h
        · exact absurd h (by simpa using hp)
        · exact h
      have hne : ¬ p.1 = k := by simpa using hp
      simpa [List.find?_cons, hp, hne] using ih hr

/-- Appending a `(k, v)` entry after entries whose keys all differ from `k`
makes the lookup of `k` yield `v`. -/
theorem dictFind_append_single {α : Type} (m : List (String × α)) (k : String) (v : α) :
    (∀ p ∈ m, (p.1 == k) = false) →
    ((m ++ [(k, v)]).find? (fun p => p.1 == k)).map (·.2) = some v := by
  induction m with
  | nil => intro _; simp
  | cons p rest ih =>
    intro hall
    have hp := hall p (List.mem_cons_self p rest)
    have hne : ¬ p.1 = k := by simpa using hp
    simpa [List.find?_cons, hp, hne] using ih (fun q hq => hall q (List.mem_cons_of_mem p hq))

/-- Looking up a key just set yields the set value. -/
theorem dictFind_dictSet_self {α : Type} (m : List (String × α)) (k : String) (v : α) :
    dictFind (dictSet m k v) k = some v := by
  unfold dictFind dictSet
  by_cases h : m.any (fun p => p.1 == k) = true
  · rw [if_pos h]
    exact dictFind_map_set m k v h
  · rw [if_neg h]
    refine dictFind_append_single m k v (fun p hp => ?_)
    exact Bool.eq_false_iff.mpr (List.any_eq_false.mp (Bool.eq_false_iff.mpr h) p hp)

/-- If every exposed method raises, the probing loop yields no documents. -/
theorem tryMethods_eq_nil (q : String) (ms : List MethodBehavior)
    (h : ∀ b ∈ ms, b = MethodBehavior.raises) : tryMethods q ms = [] := by
  induction ms with
  | nil => rfl
  | cons b rest ih =>
    have hb := h b (List.mem_cons_self b rest)
    subst hb
    exact ih (fun b hb => h b (List.mem_cons_of_mem _ hb))

/-- The per-chunk metadata fix is idempotent: a chunk it has produced is
mapped to itself. -/
theorem fix_chunk_idem (info : FixInfo) (filename : String)
    (c c' : List (String × JValue)) (h : fix_chunk info filename c = some c') :
    fix_chunk info filename c' = some c' := by
  unfold fix_chunk at h
  dsimp only at h
  set base := (if c.any (fun p => p.1 == "metadata") then c
    else dictSet c "metadata" (JValue.jobj [])) with hbase
  cases hm : dictFind base "metadata" with
  | none => rw [hm] at h; exact absurd h (by simp)
  | some v =>
    cases v with
    | jobj m =>
      rw [hm] at h
      simp only [Option.some.injEq] at h
      set m4 := dictSet (dictSet (dictSet (dictSet m "source" (JValue.jstr filename))
        "title" (JValue.jstr info.title)) "url" (JValue.jstr info.url))
        "from" (JValue.jstr info.company) with hm4
      have hc' : c' = dictSet base "metadata" (JValue.jobj m4) := h.symm
      have hfixed : KeyFixed "metadata" (JValue.jobj m4) c' := by
        rw [hc']; exact keyFixed_dictSet_self base "metadata" (JValue.jobj m4)
      have hany : c'.any (fun p => p.1 == "metadata") = true := hfixed.1
      have hfind : dictFind c' "metadata" = some (JValue.jobj m4) := by
        rw [hc']; exact dictFind_dictSet_self base "metadata" (JValue.jobj m4)
      have hsrc : KeyFixed "source" (JValue.jstr filename) m4 := by
        rw [hm4]
        exact keyFixed_dictSet_other _ _ (by decide)
          (keyFixed_dictSet_other _ _ (by decide)
            (keyFixed_dictSet_other _ _ (by decide)
              (keyFixed_dictSet_self m "source" (JValue.jstr filename))))
      have htit : KeyFixed "title" (JValue.jstr info.title) m4 := by
        rw [hm4]
        exact keyFixed_dictSet_other _ _ (by decide)
          (keyFixed_dictSet_other _ _ (by decide)
            (keyFixed_dictSet_self _ "title" (JValue.jstr info.title)))
      have hurl : KeyFixed "url" (JValue.jstr info.url) m4 := by
        rw [hm4]
        exact keyFixed_dictSet_other _ _ (by decide)
          (keyFixed_dictSet_self _ "url" (JValue.jstr info.url))
      have hfrom : KeyFixed "from" (JValue.jstr info.company) m4 :=
        hm4 ▸ keyFixed_dictSet_self _ "from" (JValue.jstr info.company)
      unfold fix_chunk
      dsimp only
      rw [if_pos hany, hfind]
      dsimp only
      rw [dictSet_of_keyFixed hsrc, dictSet_of_keyFixed htit,
        dictSet_of_keyFixed hurl, dictSet_of_keyFixed hfrom]
      rw [dictSet_of_keyFixed hfixed, hc']
    | jstr s => rw [hm] at h; exact absurd h (by simp)
    | jnum n => rw [hm] at h; exact absurd h (by simp)
    | jbool b => rw [hm] at h; exact absurd h (by simp)
    | jnull => rw [hm] at h; exact absurd h (by simp)
    | jarr l => rw [hm] at h; exact absurd h (by simp)

/-- The line loop inherits idempotence from the per-chunk fix. -/
theorem fixChunks_idem (info : FixInfo) (filename : String) :
    ∀ (cs cs' : List (List (String × JValue))),
      fixChunks info filename cs = some cs' → fixChunks info filename cs' = some cs' := by
  intro cs
  induction cs with
  | nil =>
    intro cs' h
    simp only [fixChunks, Option.some.injEq] at h
    subst h; rfl
  | cons c rest ih =>
    intro cs' h
    unfold fixChunks at h
    cases hc : fix_chunk info filename c with
    | none => rw [hc] at h; exact absurd h (by simp)
    | some c1 =>
      cases hr : fixChunks info filename rest with
      | none => rw [hc, hr] at h; exact absurd h (by simp)
      | some rest1 =>
        rw [hc, hr] at h
        simp only [Option.some.injEq] at h
        subst h
        unfold fixChunks
        rw [fix_chunk_idem info filename c c1 hc, ih rest1 hr]

/-! ## Claim theorems -/

set_option maxRecDepth 100000 in
/-- C1, as stated by the spec, fails on the code: with two retrieved documents
of 750 characters each, both texts fit the `max_chars = 1500` budget counter,
but the assembled context string joins them with a blank line, reaching 1502
characters, which exceeds `max_chars`. -/
theorem c1_counterexample :
    1500 < (run_rag_chain "How to budget?"
      [MethodBehavior.returns (fun _ => some
        [⟨⟨List.replicate 750 'a'⟩, []⟩, ⟨⟨List.replicate 750 'b'⟩, []⟩])]
      "Strict").context.length := by
  decide

/-- C1 (amended): for every query and every retriever, the context string
assembled by `run_rag_chain` is the blank-line join of chunk texts whose total
length (the separators not counted) is at most `max_chars = 1500`; the joined
string itself can exceed the budget only by the two-character separators. -/
theorem c1_context_within_budget (query : String) (retriever : List MethodBehavior)
    (rag_mode : String) :
    ∃ parts : List String,
      (run_rag_chain query retriever rag_mode).context = String.intercalate "\n\n" parts ∧
        (parts.map String.length).sum ≤ 1500 := by
  refine ⟨assembleParts (tryMethods (rewrite_query query) retriever) 0, ?_, ?_⟩
  · simp only [run_rag_chain]
    split_ifs <;> rfl
  · simpa [rag_max_chars] using
      assembleParts_sum_le (tryMethods (rewrite_query query) retriever) 0
        (by norm_num [rag_max_chars])

/-- C2, as stated by the spec, fails on the code: the first matching trigger
keyword for the query `"How can I save money?"` is `"save"`, whose configured
expansion is `"saving tips money management"`; the expanded query does not
contain `"emergency fund"` (that phrase belongs to the `"emergency"` mapping,
which is never reached). -/
theorem c2_counterexample :
    rewrite_query "How can I save money?"
        = "How can I save money? saving tips money management" ∧
      pyContains (rewrite_query "How can I save money?") "emergency fund" = false := by
  constructor
  · rfl
  · decide

/-- C2 (amended): expanding `"How can I save money?"` appends the expansion
configured for the trigger keyword `"save"`, namely
`"saving tips money management"`, which the result therefore contains. -/
theorem c2_save_expansion :
    pyContains (rewrite_query "How can I save money?") "saving tips money management" = true ∧
      financial_keywords.find?
          (fun p => pyContains (pyLower "How can I save money?") p.1)
        = some ("save", "saving tips money management") := by
  constructor
  · decide
  · rfl

set_option maxRecDepth 100000 in
/-- C3, as stated by the spec, fails on the code for `N = 0`: the intent
detector yields `count = 0` for the query `"0 tips"`, but the Strict-mode
prompt does not contain the instruction demanding 0 items, because the
truthiness test `if intent["count"]:` rejects 0. -/
theorem c3_counterexample :
    (detect_query_intent "0 tips").count = some 0 ∧
      ¬ ((count_instruction_text 0).data <:+:
          ((run_rag_chain "0 tips" [] "Strict").prompt).data) := by
  constructor
  · rfl
  · rw [← listIsInfixOf_iff]
    decide

/-- C3 (amended): for every query whose detected intent has a nonzero count
`N`, and every retriever, the Strict-mode prompt built by `run_rag_chain`
contains the exact instruction text demanding `N` items. -/
theorem c3_strict_prompt_has_count_instruction (query : String)
    (retriever : List MethodBehavior) (n : Nat)
    (hc : (detect_query_intent query).count = some n) (hn : n ≠ 0) :
    (count_instruction_text n).data <:+:
      ((run_rag_chain query retriever "Strict").prompt).data := by
  have hprompt : (run_rag_chain query retriever "Strict").prompt
      = strict_prompt_head ++ count_instruction_text n
        ++ strict_prompt_tail
          (String.intercalate "\n\n"
            (assembleParts (tryMethods (rewrite_query query) retriever) 0)) query := by
    simp only [run_rag_chain, hc, hn, strict_prompt, if_false, ite_false, reduceIte]
  rw [hprompt]
  refine ⟨strict_prompt_head.data,
    (strict_prompt_tail
      (String.intercalate "\n\n"
        (assembleParts (tryMethods (rewrite_query query) retriever) 0)) query).data, ?_⟩
  simp [string_data_append, List.append_assoc]

/-- Witness for C3: the query `"give me 5 tips"` has detected count 5, and the
Strict prompt contains the instruction demanding exactly 5 items. -/
theorem c3_witness :
    (count_instruction_text 5).data <:+:
      ((run_rag_chain "give me 5 tips" [] "Strict").prompt).data :=
  c3_strict_prompt_has_count_instruction "give me 5 tips" [] 5 (by decide) (by decide)

/-- C4, as stated by the spec, fails on the code: the scan is a substring
test, not a whole-word test.  For the query `"money"` the digit pattern is
absent and no spelled-out number occurs as a whole word, yet
`detect_query_intent` yields count 1 because `"one"` occurs inside the word
`"money"`. -/
theorem c4_counterexample :
    (detect_query_intent "money").count = some 1 ∧
      spec_whole_word_count "money" = none ∧
      searchCount (pyLower "money").data = none := by
  refine ⟨rfl, rfl, rfl⟩

/-- C4 (amended): for every query with no digit-pattern count, the detector
scans the spelled-out numbers one through ten as substring matches against the
lowercased query, first match winning by iteration order, and yields no count
when none matches. -/
theorem c4_word_number_substring_scan (query : String)
    (h : searchCount (pyLower query).data = none) :
    (detect_query_intent query).count
      = (word_nums.find? (fun p => pyContains (pyLower query) p.1)).map (·.2) := by
  simp only [detect_query_intent, h]

/-- Witness for C4: the spec's own example `"three tips for saving"` takes the
word-number path and yields count 3. -/
theorem c4_witness : (detect_query_intent "three tips for saving").count = some 3 :=
  (c4_word_number_substring_scan "three tips for saving" (by rfl)).trans (by rfl)

/-- C5: in Model-only mode the source list returned by `run_rag_chain` is
empty, for every query and every retriever. -/
theorem c5_model_only_sources_empty (query : String) (retriever : List MethodBehavior) :
    (run_rag_chain query retriever "Model-only").sources = [] := rfl

/-- C6: if every document-access method the retriever exposes raises (in
particular if it exposes none), `run_rag_chain` returns an empty context
string and an empty source list instead of propagating an error. -/
theorem c6_retrieval_failure_degrades (query : String) (retriever : List MethodBehavior)
    (rag_mode : String) (h : ∀ b ∈ retriever, b = MethodBehavior.raises) :
    (run_rag_chain query retriever rag_mode).context = "" ∧
      (run_rag_chain query retriever rag_mode).sources = [] := by
  have hd : tryMethods (rewrite_query query) retriever = [] :=
    tryMethods_eq_nil (rewrite_query query) retriever h
  constructor <;>
  · simp only [run_rag_chain, hd]
    split_ifs <;> rfl

/-- Witness for C6: a retriever whose single method raises yields empty
context and sources. -/
theorem c6_witness :
    (run_rag_chain "what is epf" [MethodBehavior.raises] "Hybrid").context = "" ∧
      (run_rag_chain "what is epf" [MethodBehavior.raises] "Hybrid").sources = [] :=
  c6_retrieval_failure_degrades "what is epf" [MethodBehavior.raises] "Hybrid"
    (by intro b hb; simpa using hb)

set_option maxRecDepth 100000 in
/-- C7: formatting a chunk whose metadata holds `source = "budgeting_rule.jsonl"`
(and no `source_file` or `title`) resolves, through the exact-key lookup of the
normalised source name, to the title `"50-30-20 Rule"` and the corresponding
KWSP URL. -/
theorem c7_budgeting_rule_lookup :
    format_chunk_source [("source", "budgeting_rule.jsonl")]
      = ("50-30-20 Rule", "https://www.kwsp.gov.my/w/article/50-30-20-rule") := by
  decide

/-- C8: a chunk whose text is shorter than 150 characters produces no Q&A
pairs, whatever the text-cleaning, sentence-extraction and random-sampling
behaviours are. -/
theorem c8_short_chunk_no_pairs (clean_text : String → String)
    (extract_good_sentences : String → List String)
    (sample : List (String × Option String) → Nat → List (String × Option String))
    (chunk_text filename : String) (h : chunk_text.length < 150) :
    create_qa_pairs_from_chunk clean_text extract_good_sentences sample chunk_text filename
      = [] := by
  unfold create_qa_pairs_from_chunk
  rw [if_pos (Or.inr h)]

/-- Witness for C8: a 10-character chunk generates no pairs. -/
theorem c8_witness :
    create_qa_pairs_from_chunk id (fun _ => []) (fun ts _ => ts) "short text" "f.jsonl" = [] :=
  c8_short_chunk_no_pairs id (fun _ => []) (fun ts _ => ts) "short text" "f.jsonl" (by decide)

/-- C9: the metadata-fixing pass is idempotent: applying `update_chunk_file`
to its own output yields that output unchanged, for every filename and every
parsed chunk file. -/
theorem c9_update_chunk_file_idempotent (filename : String)
    (chunks : List (List (String × JValue))) :
    update_chunk_file filename (update_chunk_file filename chunks)
      = update_chunk_file filename chunks := by
  unfold update_chunk_file
  cases hfind : find_article_info filename with
  | none => rfl
  | some info =>
    cases hfix : fixChunks info filename chunks with
    | none => simp [hfix]
    | some out => simp [hfix, fixChunks_idem info filename chunks out hfix]

/-- C10: every non-empty input whose stripped, lowercased form either equals a
fixed greeting string, or has at most two whitespace-separated words and
starts with one of them, is classified as a greeting and receives the canned
greeting response with no RAG invocation; and `is_greeting` of the empty
string is `false`. -/
theorem c10_greeting_shortcut (text : String) (retriever : List MethodBehavior)
    (rag_mode : String) (hne : text ≠ "")
    (hcond : greetings_list.contains (pyLower (pyStrip text)) = true ∨
      ((pyWords (pyLower (pyStrip text))).length ≤ 2 ∧
        ∃ g ∈ greetings_list, pyStartsWith (pyLower (pyStrip text)) g = true)) :
    (is_greeting text = true ∧
      handle_prompt text retriever rag_mode = ChatAction.greeting greeting_response) ∧
      is_greeting "" = false := by
  have hg : is_greeting text = true := by
    unfold is_greeting
    rw [if_neg hne]
    dsimp only
    rw [Bool.or_eq_true]
    rcases hcond with h | ⟨h2, g, hgmem, hs⟩
    · exact Or.inl h
    · refine Or.inr ?_
      rw [Bool.and_eq_true]
      exact ⟨decide_eq_true h2, List.any_eq_true.mpr ⟨g, hgmem, hs⟩⟩
  refine ⟨⟨hg, ?_⟩, rfl⟩
  unfold handle_prompt
  rw [if_pos hg]

/-- Witness for C10: the input `"high fees"` (two words, starting with the
greeting `"hi"` as a prefix) is treated as a greeting and short-circuits to
the canned response. -/
theorem c10_witness :
    (is_greeting "high fees" = true ∧
      handle_prompt "high fees" [] "Hybrid" = ChatAction.greeting greeting_response) ∧
      is_greeting "" = false :=
  c10_greeting_shortcut "high fees" [] "Hybrid" (by decide)
    (Or.inr (by decide))
